import Mathlib

/-!
Verification of the Akari Manager Home Assistant integration
(`custom_components/akari_manager`): a shallow embedding in Lean 4 of the
JSON data model, the transport client error taxonomy (`api_client.py`),
the refresh coordinator (`coordinator.py`), the read adapters
(`binary_sensor.py`, `sensor.py`), the write adapters (`button.py`), the
config-update service and setup entry (`__init__.py`), and the
module-import structure (`const.py` / `sensor.py`).
-/

namespace Akari

/-- JSON-like values as Python represents them after parsing: `null` is
Python `None`, objects are `dict`, arrays are `list`. Numbers are
modelled as integers; no claim depends on float behaviour. -/
inductive Json where
  | null : Json
  | bool (b : Bool) : Json
  | num (n : Int) : Json
  | str (s : String) : Json
  | arr (xs : List Json) : Json
  | obj (fields : List (String × Json)) : Json

/-- Python truthiness (`bool(value)`) on JSON-like values: `None`,
`False`, `0`, the empty string, the empty list and the empty dict are
falsy, everything else truthy. -/
def Json.truthy : Json → Bool
  | .null => false
  | .bool b => b
  | .num n => n != 0
  | .str s => s != ""
  | .arr xs => !xs.isEmpty
  | .obj fields => !fields.isEmpty

/-- Python `dict.get(key)`: the stored value when the key is present,
`None` (JSON null) when absent. Embeds `value.get(key)`. -/
def Json.dictGet (fields : List (String × Json)) (key : String) : Json :=
  match fields.lookup key with
  | some v => v
  | none => Json.null

/-- Loop of `AkariBinarySensor._get_value` (`binary_sensor.py:118-123`)
and `AkariSensor.native_value` (`sensor.py:111-116`), identical code:
walk the path; a non-dict intermediate value returns `None`; a missing
key yields `None` via `dict.get` and the next iteration returns it. -/
def walkPath : Json → List String → Json
  | v, [] => v
  | v, key :: rest =>
    match v with
    | .obj fields => walkPath (Json.dictGet fields key) rest
    | _ => Json.null

/-- Reading a declared field path against the coordinator snapshot:
`AkariBinarySensor._get_value` (`binary_sensor.py:114-123`) =
`AkariSensor.native_value` (`sensor.py:106-116`). The coordinator data
is either never set (`none`) or a JSON value; the guard
`if not self.coordinator.data` short-circuits on falsy data. -/
def getValue (data : Option Json) (path : List String) : Json :=
  match data with
  | none => Json.null
  | some d => if d.truthy then walkPath d path else Json.null

/-- Specification-side reading of a field path: follow the keys through
nested mappings, `none` as soon as a key is absent or an intermediate
value is not a mapping, `some v` when the exact nested value `v` is
found by following all keys. -/
def followPath : Json → List String → Option Json
  | v, [] => some v
  | .obj fields, key :: rest =>
    match fields.lookup key with
    | some v => followPath v rest
    | none => none
  | _, _ :: _ => none

/-- Outcome of the underlying `aiohttp` request inside
`AkariApiClient._request` (`api_client.py:62-69`): a connection-level
failure (`aiohttp.ClientConnectionError`), a timeout
(`asyncio.TimeoutError`), or an HTTP response carrying a status code, an
optional content-type header and a JSON body. The body is modelled
already parsed; `response.json(content_type=None)` skips the
content-type check, so the header never influences parsing. -/
inductive HttpOutcome where
  | connFail (err : String)
  | timeout (err : String)
  | resp (status : Nat) (contentType : Option String) (body : Json)

/-- The two typed errors of `api_client.py:25-30`. -/
inductive AkariError where
  | connectionError (msg : String)
  | authError (msg : String)

/-- `aiohttp.ClientResponse.ok`: true iff the status code is below 400
(aiohttp semantics; this is not the same as a 2xx status). -/
def responseOk (status : Nat) : Bool := status < 400

/-- `AkariApiClient._request` (`api_client.py:54-84`): connection errors
and timeouts map to `AkariConnectionError`; 401 and 403 map to
`AkariAuthError` with distinct messages; any other response that is not
`ok` (status at least 400) maps to `AkariConnectionError` with the
status embedded; an `ok` response returns the JSON body. -/
def request (url : String) (outcome : HttpOutcome) : Except AkariError Json :=
  match outcome with
  | .connFail err =>
    .error (.connectionError s!"Cannot connect to Akari at {url}: {err}")
  | .timeout err =>
    .error (.connectionError s!"Cannot connect to Akari at {url}: {err}")
  | .resp status _ body =>
    if status = 401 then
      .error (.authError "Invalid API key")
    else if status = 403 then
      .error (.authError "Forbidden: check API key permissions")
    else if !responseOk status then
      .error (.connectionError s!"Unexpected response {status} from {url}")
    else
      .ok body

/-- A 2xx (success) HTTP status, as the spec uses the term. -/
def is2xx (status : Nat) : Prop := 200 ≤ status ∧ status < 300

/-- `AkariApiClient.get_devices` after a successful `_request`
(`api_client.py:116-121`): a list body is returned unchanged; otherwise
`result.get("devices", [])` — for a dict body, the value stored under
`devices`, or the empty list when the key is absent. A body that is
neither list nor dict has no `.get` attribute and raises; modelled as
`none`. -/
def get_devices (body : Json) : Option Json :=
  match body with
  | .arr xs => some (.arr xs)
  | .obj fields =>
    some (match fields.lookup "devices" with
          | some v => v
          | none => .arr [])
  | _ => none

/-- The device object used in the spec scenario for `get_devices`. -/
def deviceD1 : Json := Json.obj [("id", Json.str "d1")]

/-- `AkariCoordinator._async_update_data` (`coordinator.py:37-52`). The
argument is the outcome of `asyncio.gather(get_status, get_system_info)`:
both JSON bodies on success, or the raised `AkariError`. An auth or
connection error becomes a raised `UpdateFailed` (the `Except.error`
branch, carrying the `UpdateFailed` message); success returns the merged
snapshot with top-level keys `status` and `system_info`. -/
def updateData (fetch : Except AkariError (Json × Json)) : Except String Json :=
  match fetch with
  | .ok (status, sysInfo) =>
    .ok (.obj [("status", status), ("system_info", sysInfo)])
  | .error (.authError e) => .error s!"Authentication error: {e}"
  | .error (.connectionError e) => .error s!"Cannot connect to Akari device: {e}"

/-- Coordinator state visible to readers: the published snapshot (never
set before the first success) and the health flag. -/
structure CoordState where
  data : Option Json
  lastUpdateSuccess : Bool

/-- Modelled from the spec: the host framework class
`homeassistant.helpers.update_coordinator.DataUpdateCoordinator` (not
part of this repository) runs `_async_update_data`; per the spec, "On
failure the previous successful Snapshot (if any) is retained and still
served to readers; only the error is surfaced for health/availability
reporting", and on success the published snapshot is replaced
atomically. -/
def refreshStep (st : CoordState) (fetch : Except AkariError (Json × Json)) :
    CoordState :=
  match updateData fetch with
  | .ok d => { data := some d, lastUpdateSuccess := true }
  | .error _ => { st with lastUpdateSuccess := false }

/-- Outcome of `async_setup_entry` in `__init__.py:32-61` as decided by
the mandatory first fetch (`client.get_status()` at line 43):
`abortPermanent` is `return False` (no retry), `retryNotReady` is
`raise ConfigEntryNotReady` (the host retries later), `success`
continues with coordinator and platform setup. -/
inductive SetupResult where
  | success : SetupResult
  | abortPermanent : SetupResult
  | retryNotReady : SetupResult

/-- The `try` block of `__init__.py:41-48` around the initial
`get_status` call. -/
def setupFirstFetch (statusResult : Except AkariError Json) : SetupResult :=
  match statusResult with
  | .ok _ => .success
  | .error (.authError _) => .abortPermanent
  | .error (.connectionError _) => .retryNotReady

/-- Python `str.lower()`: lowercase each character (the five literals it
is compared against are ASCII, where this agrees with Python exactly). -/
def pyLower (s : String) : String := String.mk (s.data.map Char.toLower)

/-- The interpretation `AkariBinarySensor.is_on`
(`binary_sensor.py:125-135`) applies to the located value: `None` gives
unknown; a `bool` is returned as-is; a string is on iff its
`str.lower()` form is one of the five listed literals; anything else
goes through `bool(value)`. -/
def coerceBoolLike (value : Json) : Option Bool :=
  match value with
  | .null => none
  | .bool b => some b
  | .str s => some (["true", "ok", "running", "active", "1"].contains (pyLower s))
  | v => some v.truthy

/-- `AkariBinarySensor.is_on`: apply `coerceBoolLike` to the value
located by `_get_value`. -/
def is_on (data : Option Json) (path : List String) : Option Bool :=
  coerceBoolLike (getValue data path)

/-- Written from the spec text, for comparison with the source-derived
`coerceBoolLike`: value is on if it is boolean true, or a string
case-insensitively equal to one of true, ok, running, active, 1; any
other non-null value coerces via truthiness; null or an absent path
gives unknown. -/
def specBoolAdapter (value : Json) : Option Bool :=
  match value with
  | .null => none
  | .bool b => some b
  | .str s => some (["true", "ok", "running", "active", "1"].contains (pyLower s))
  | v => some v.truthy

/-- The declared field path of the `module_mqtt` binary sensor
(`binary_sensor.py:37`). -/
def mqttPath : List String := ["status", "modules", "mqtt"]

/-- A snapshot whose mqtt module value is `v`, shaped as one produced by
`_async_update_data`. -/
def statusSnap (v : Json) : Json :=
  Json.obj
    [("status", Json.obj [("modules", Json.obj [("mqtt", v)])]),
     ("system_info", Json.obj [("uptime_seconds", Json.num 5)])]

/-- What `AkariButton.async_press` produced: a normal return carrying
the persistent notifications created and the error log lines written, or
an exception escaping the handler. -/
inductive PressOutcome where
  | returned (notifications : List String) (logs : List String) : PressOutcome
  | raised (err : AkariError) : PressOutcome

/-- `AkariButton.async_press` (`button.py:80-103`). `restartResult` and
`reloadResult` are the outcomes of `client.restart()` and
`client.reload_config()`; only the pressed action's result is consulted.
(`async_request_refresh` in the reload branch never raises: the
coordinator converts update failures to state, so it is not modelled.)
The `except AkariConnectionError` clause writes one error log naming the
action, the device and the error, then returns; any other exception —
in particular `AkariAuthError` — propagates. -/
def asyncPress (action deviceName deviceId : String)
    (restartResult reloadResult : Except AkariError Json) : PressOutcome :=
  if action = "restart" then
    match restartResult with
    | .ok _ => .returned [s!"Restart command sent to {deviceName}."] []
    | .error (.connectionError e) =>
      .returned [] [s!"Failed to execute {action} on {deviceId}: {e}"]
    | .error (.authError e) => .raised (.authError e)
  else if action = "reload" then
    match reloadResult with
    | .ok _ => .returned [s!"Config reloaded on {deviceName}."] []
    | .error (.connectionError e) =>
      .returned [] [s!"Failed to execute {action} on {deviceId}: {e}"]
    | .error (.authError e) => .raised (.authError e)
  else
    .returned [] []

/-- `CONFIG_SECTIONS` from `const.py:29`; the service schema
(`vol.In(CONFIG_SECTIONS)`, `__init__.py:159`) only admits these. -/
def CONFIG_SECTIONS : List String :=
  ["mqtt", "devices", "covers", "sensors", "modbus", "system"]

/-- The success-path message of `handle_update_config_section`
(`__init__.py:127-129`): base confirmation, with the restart notice
appended when `result.get("restart_required")` is truthy. -/
def updateConfigMessage (sectionName : String) (result : List (String × Json)) :
    String :=
  let msg := s!"Config section \x27{sectionName}\x27 updated successfully."
  if (Json.dictGet result "restart_required").truthy then
    msg ++
      "\n\n**Restart required** for changes to take effect. Use the Restart Service button."
  else
    msg

/-- The restart-required notice text. -/
def restartNotice : String := "**Restart required**"

/-- Whether a message contains the restart-required notice. -/
def containsRestartNotice (msg : String) : Bool :=
  decide (restartNotice.toList <:+: msg.toList)

/-- Every module-level name defined by `const.py` (lines 3-34). -/
def constDefinedNames : List String :=
  ["DOMAIN", "PLATFORMS",
   "CONF_DEVICE_ID", "CONF_API_URL", "CONF_API_KEY",
   "API_STATUS", "API_SYSTEM_INFO", "API_SYSTEM_LOGS", "API_CONFIG",
   "API_CONFIG_SECTION", "API_RELOAD", "API_RESTART", "API_DEVICES",
   "MQTT_DISCOVERY_TOPIC", "MQTT_DISCOVERY_TIMEOUT",
   "UPDATE_INTERVAL_SECONDS", "CONFIG_SECTIONS",
   "SERVICE_GET_CONFIG_SECTION", "SERVICE_UPDATE_CONFIG_SECTION",
   "SERVICE_GET_DEVICES"]

/-- The names `sensor.py:19` requests from `.const`:
`from .const import CONF_API_KEY, CONF_API_URL, CONF_RPI_ID, DOMAIN`. -/
def sensorConstImports : List String :=
  ["CONF_API_KEY", "CONF_API_URL", "CONF_RPI_ID", "DOMAIN"]

/-- The keys of the four diagnostic sensors declared in
`SENSOR_DESCRIPTIONS` (`sensor.py:31-68`). -/
def sensorDescriptionKeys : List String :=
  ["cpu_temperature", "ram_used", "ram_total", "uptime"]

/-- Python `from M import a, b, ...` semantics applied to
`sensor.py:19`: the module body runs before `async_setup_entry` can be
called, and the import raises `ImportError` if any requested name is
undefined in `const`; only if it resolves does platform setup reach the
entity loop and instantiate the four described sensors. -/
def sensorPlatformSetup : Except (List String) (List String) :=
  match sensorConstImports.filter (fun n => !constDefinedNames.contains n) with
  | [] => .ok sensorDescriptionKeys
  | missing => .error missing

end Akari

namespace Akari

theorem walkPath_eq_followPath (d : Json) (path : List String) :
    walkPath d path = (followPath d path).getD Json.null := by
  induction path generalizing d with
  | nil => cases d <;> rfl
  | cons key rest ih =>
    cases d with
    | obj fields =>
      simp only [walkPath, followPath, Json.dictGet]
      cases h : fields.lookup key with
      | none =>
        simp only [Option.getD]
        cases rest with
        | nil => rfl
        | cons k ks => rfl
      | some v => exact ih v
    | null => cases rest <;> rfl
    | bool b => cases rest <;> rfl
    | num n => cases rest <;> rfl
    | str s => cases rest <;> rfl
    | arr xs => cases rest <;> rfl

/-- C1: for every snapshot `S` (possibly unset or empty) and every field
path `P`, the read (`_get_value` / `native_value`) returns the exact
nested value found by following the keys of `P` through nested mappings,
and returns `None` ("unknown") when `S` is unset or empty (falsy) or
when any prefix of `P` is absent or lands on a non-mapping value. The
embedding is a total function, so the read never raises. -/
theorem c1_read_follows_path (S : Option Json) (P : List String) :
    getValue S P =
      match S with
      | none => Json.null
      | some d =>
        if d.truthy then (followPath d P).getD Json.null else Json.null := by
  cases S with
  | none => rfl
  | some d =>
    simp only [getValue]
    by_cases h : d.truthy <;> simp [h, walkPath_eq_followPath]

/-- C2: when a refresh cycle fails with an auth or connection error, the
update function signals `UpdateFailed` (error result, never a normal
return), the published snapshot is unchanged, and any path read against
it yields the same value as before the failure. -/
theorem c2_failure_retains_snapshot (st : CoordState)
    (fetch : Except AkariError (Json × Json)) (err : AkariError)
    (P : List String) (h : fetch = .error err) :
    (updateData fetch).isOk = false
    ∧ (refreshStep st fetch).data = st.data
    ∧ getValue (refreshStep st fetch).data P = getValue st.data P := by
  subst h
  cases err with
  | connectionError e => exact ⟨rfl, rfl, rfl⟩
  | authError e => exact ⟨rfl, rfl, rfl⟩

/-- Witness for C2 at a concrete failing fetch and snapshot. -/
theorem c2_failure_retains_snapshot_witness :
    (updateData (Except.error (AkariError.connectionError "down"))).isOk = false
    ∧ (refreshStep ⟨some (statusSnap (Json.str "Running")), true⟩
          (Except.error (AkariError.connectionError "down"))).data
        = some (statusSnap (Json.str "Running"))
    ∧ getValue (refreshStep ⟨some (statusSnap (Json.str "Running")), true⟩
          (Except.error (AkariError.connectionError "down"))).data mqttPath
        = getValue (some (statusSnap (Json.str "Running"))) mqttPath :=
  c2_failure_retains_snapshot ⟨some (statusSnap (Json.str "Running")), true⟩
    _ _ mqttPath rfl

/-- C3 counterexample: HTTP 304 is not a 2xx status and is neither 401
nor 403, yet `_request` returns the parsed body instead of raising
`AkariConnectionError`, because `aiohttp`'s `response.ok` is
`status < 400`, not "status is 2xx". -/
theorem c3_counterexample :
    ¬ is2xx 304
    ∧ 304 ≠ 401
    ∧ 304 ≠ 403
    ∧ request "http://akari.local" (.resp 304 (some "text/html") (Json.obj []))
        = Except.ok (Json.obj []) :=
  ⟨by unfold is2xx; decide, by decide, by decide, rfl⟩

/-- C3 (amended): connection failures and timeouts raise
`AkariConnectionError`; 401 and 403 raise `AkariAuthError` with distinct
messages; any other status of at least 400 raises
`AkariConnectionError` with the status embedded in the message; any
response with status below 400 (`response.ok` in aiohttp) returns the
body parsed as JSON, independently of the content-type header. -/
theorem c3_request_taxonomy (url e : String) (status : Nat)
    (ct : Option String) (body : Json) :
    request url (.connFail e)
      = Except.error (.connectionError s!"Cannot connect to Akari at {url}: {e}")
    ∧ request url (.timeout e)
      = Except.error (.connectionError s!"Cannot connect to Akari at {url}: {e}")
    ∧ request url (.resp 401 ct body)
      = Except.error (.authError "Invalid API key")
    ∧ request url (.resp 403 ct body)
      = Except.error (.authError "Forbidden: check API key permissions")
    ∧ (status ≠ 401 → status ≠ 403 → 400 ≤ status →
        request url (.resp status ct body)
          = Except.error
              (.connectionError s!"Unexpected response {status} from {url}"))
    ∧ (status < 400 →
        request url (.resp status ct body) = Except.ok body)
    ∧ request url (.resp status ct body) = request url (.resp status none body) := by
  refine ⟨rfl, rfl, rfl, rfl, ?_, ?_, rfl⟩
  · intro h1 h2 h3
    have hlt : ¬ status < 400 := Nat.not_lt.mpr h3
    simp [request, responseOk, h1, h2, hlt]
  · intro h
    have h1 : status ≠ 401 := by omega
    have h2 : status ≠ 403 := by omega
    simp [request, responseOk, h1, h2, h]

/-- Witness for C3 (amended) at status 500. -/
theorem c3_request_taxonomy_witness :
    request "http://akari.local" (.resp 500 none Json.null)
      = Except.error
          (.connectionError "Unexpected response 500 from http://akari.local") :=
  (c3_request_taxonomy "http://akari.local" "" 500 none Json.null).2.2.2.2.1
    (by decide) (by decide) (by decide)

/-- C4: during the mandatory first fetch, an `AkariAuthError` makes
`async_setup_entry` return `False` (permanent abort, no retry) while an
`AkariConnectionError` raises `ConfigEntryNotReady` (retryable); in
particular an HTTP 401 on the first `get_status` aborts setup
permanently. -/
theorem c4_setup_distinguishes_failures (e : String) (d body : Json)
    (ct : Option String) :
    setupFirstFetch (.error (.authError e)) = SetupResult.abortPermanent
    ∧ setupFirstFetch (.error (.connectionError e)) = SetupResult.retryNotReady
    ∧ setupFirstFetch (.ok d) = SetupResult.success
    ∧ setupFirstFetch (request "http://akari.local" (.resp 401 ct body))
        = SetupResult.abortPermanent :=
  ⟨rfl, rfl, rfl, rfl⟩

/-- C5: `is_on` coincides with the spec's boolean-like adapter rule on
every located value (null gives unknown, booleans pass through, strings
compare case-insensitively against the five literals, anything else
coerces via truthiness), and on the spec's concrete examples read
through the declared `module_mqtt` path: "Running" is on, "disabled" is
off, null is unknown, 0 is off, 1 is on; an absent path is unknown. -/
theorem c5_bool_like_interpretation :
    (∀ data path, is_on data path = specBoolAdapter (getValue data path))
    ∧ is_on (some (statusSnap (Json.str "Running"))) mqttPath = some true
    ∧ is_on (some (statusSnap (Json.str "disabled"))) mqttPath = some false
    ∧ is_on (some (statusSnap Json.null)) mqttPath = none
    ∧ is_on (some (statusSnap (Json.num 0))) mqttPath = some false
    ∧ is_on (some (statusSnap (Json.num 1))) mqttPath = some true
    ∧ is_on (some (Json.obj [("status", Json.obj [("x", Json.num 1)])])) mqttPath
        = none := by
  refine ⟨?_, by decide, by decide, rfl, rfl, rfl, rfl⟩
  intro data path
  show coerceBoolLike (getValue data path) = specBoolAdapter (getValue data path)
  cases getValue data path <;> rfl

/-- C6 counterexample: an HTTP 401 on the restart endpoint makes the
client raise `AkariAuthError`, which `async_press` does not catch: the
press propagates the exception instead of returning. -/
theorem c6_counterexample :
    asyncPress "restart" "Akari Device" "akari1"
        (request "http://akari.local" (.resp 401 none Json.null))
        (Except.ok Json.null)
      = PressOutcome.raised (AkariError.authError "Invalid API key") := rfl

/-- C6 (amended): for both actions, an `AkariConnectionError` from the
client is caught: the handler writes one error log carrying the action
name and the error message and returns normally; a successful call
returns normally with the confirmation notice; but an `AkariAuthError`
propagates out of `async_press` uncaught. -/
theorem c6_press_catches_connection_errors (deviceName deviceId e : String)
    (other : Except AkariError Json) :
    asyncPress "restart" deviceName deviceId
        (Except.error (AkariError.connectionError e)) other
      = PressOutcome.returned [] [s!"Failed to execute restart on {deviceId}: {e}"]
    ∧ asyncPress "reload" deviceName deviceId other
        (Except.error (AkariError.connectionError e))
      = PressOutcome.returned [] [s!"Failed to execute reload on {deviceId}: {e}"]
    ∧ asyncPress "restart" deviceName deviceId (Except.ok Json.null) other
      = PressOutcome.returned [s!"Restart command sent to {deviceName}."] []
    ∧ asyncPress "restart" deviceName deviceId
        (Except.error (AkariError.authError e)) other
      = PressOutcome.raised (AkariError.authError e)
    ∧ asyncPress "reload" deviceName deviceId other
        (Except.error (AkariError.authError e))
      = PressOutcome.raised (AkariError.authError e) :=
  ⟨rfl, rfl, rfl, rfl, rfl⟩

/-- C7: `get_devices` normalizes the dual response shape: a list body is
returned unchanged, and an object body yields the value stored under its
`devices` key; both spec scenario bodies normalize to the same list. -/
theorem c7_get_devices_normalizes (xs : List Json)
    (fields : List (String × Json)) (v : Json)
    (h : fields.lookup "devices" = some v) :
    get_devices (Json.arr xs) = some (Json.arr xs)
    ∧ get_devices (Json.obj fields) = some v
    ∧ get_devices (Json.obj [("devices", Json.arr [deviceD1])])
        = some (Json.arr [deviceD1])
    ∧ get_devices (Json.arr [deviceD1]) = some (Json.arr [deviceD1]) := by
  refine ⟨rfl, ?_, rfl, rfl⟩
  simp [get_devices, h]

/-- Witness for C7 at concrete bodies. -/
theorem c7_get_devices_normalizes_witness :
    get_devices (Json.arr []) = some (Json.arr [])
    ∧ get_devices (Json.obj [("devices", Json.arr [])]) = some (Json.arr [])
    ∧ get_devices (Json.obj [("devices", Json.arr [deviceD1])])
        = some (Json.arr [deviceD1])
    ∧ get_devices (Json.arr [deviceD1]) = some (Json.arr [deviceD1]) :=
  c7_get_devices_normalizes [] [("devices", Json.arr [])] (Json.arr []) rfl

/-- C8 counterexample: the code gates the restart notice on Python
truthiness of `result.get("restart_required")`, so the truthy string
"false" triggers the notice although the response does not contain
`restart_required: true`. -/
theorem c8_counterexample :
    containsRestartNotice
        (updateConfigMessage "mqtt" [("restart_required", Json.str "false")])
      = true
    ∧ Json.dictGet [("restart_required", Json.str "false")] "restart_required"
        ≠ Json.bool true :=
  ⟨by decide, fun h => Json.noConfusion h⟩

/-- C8 (amended): for every admissible section name and every response,
the confirmation message contains the restart-required notice exactly
when the response's `restart_required` value is truthy (in particular
it is included for `true` and omitted for `false` or an absent key). -/
theorem c8_restart_notice_iff_truthy (sectionName : String)
    (result : List (String × Json)) (hs : sectionName ∈ CONFIG_SECTIONS) :
    containsRestartNotice (updateConfigMessage sectionName result)
      = (Json.dictGet result "restart_required").truthy := by
  simp only [CONFIG_SECTIONS, List.mem_cons, List.not_mem_nil, or_false] at hs
  rcases hs with rfl | rfl | rfl | rfl | rfl | rfl <;>
    cases htr : (Json.dictGet result "restart_required").truthy <;>
      simp [updateConfigMessage, htr, containsRestartNotice] <;> decide

/-- Witness for C8 (amended) at section mqtt and a response carrying
`restart_required: true`. -/
theorem c8_restart_notice_iff_truthy_witness :
    containsRestartNotice
        (updateConfigMessage "mqtt" [("restart_required", Json.bool true)])
      = (Json.dictGet [("restart_required", Json.bool true)]
          "restart_required").truthy :=
  c8_restart_notice_iff_truthy "mqtt" [("restart_required", Json.bool true)]
    (by decide)

/-- C10: `sensor.py` requests `CONF_RPI_ID` from `const`, `const.py`
does not define it, so the diagnostic sensor platform fails at import
time and none of the four described sensors is instantiated. -/
theorem c10_sensor_platform_import_fails :
    sensorConstImports.contains "CONF_RPI_ID" = true
    ∧ constDefinedNames.contains "CONF_RPI_ID" = false
    ∧ sensorPlatformSetup = Except.error ["CONF_RPI_ID"]
    ∧ sensorPlatformSetup.isOk = false :=
  ⟨rfl, rfl, rfl, rfl⟩

end Akari
